import Mathlib

/-!
Shallow embedding of `tchannel/outgoing.py`: the outgoing-connection
operations (`TChannelOutOps`) and the connection registry
(`OutgoingTChannel`).  Messages, responses and futures are modelled as
plain data; the sender/receiver threads become step functions over
explicit state; Python exceptions become `Except` values; the pending
call table (`self._futures`, a Python dict) and the registry map
(`self._connections`) become association lists.
-/

namespace TChannelModel

/-- A byte string (Python `bytes`), modelled as a list of byte values. -/
abbrev Bytes := List Nat

/-- The `CallRequestMessage(arg_1, arg_2, arg_3)` type from `tchannel/messages`:
the three-argument request payload built by `TChannelOutOps.send`. -/
structure CallRequestMessage where
  arg_1 : Bytes
  arg_2 : Bytes
  arg_3 : Bytes
deriving Repr, DecidableEq

/-- A decoded response message as seen by `send`'s `handle_response`:
carries a status `code` and the three response arguments. -/
structure Response where
  code : Nat
  arg_1 : Bytes
  arg_2 : Bytes
  arg_3 : Bytes
deriving Repr, DecidableEq

/-- The `TChannelApplicationException(code, arg_1, arg_2, arg_3)` type from
`tchannel/exceptions`: raised by `handle_response` on a non-zero code. -/
structure TChannelApplicationException where
  code : Nat
  arg_1 : Bytes
  arg_2 : Bytes
  arg_3 : Bytes
deriving Repr, DecidableEq

/-- Python exceptions that the embedded code can raise. -/
inductive PyError where
  /-- Python `KeyError`: subscripting a dict with a missing key. -/
  | keyError (key : Nat)
  /-- Python `AssertionError`: a failed `assert` statement. -/
  | assertionError
  /-- An exception raised by the codec while framing/writing a message
  (`SocketConnection.frame_and_write`). -/
  | encodingError
  /-- Python `socket.error` raised while closing a connection. -/
  | socketError
  /-- Any other exception raised while closing a connection. -/
  | otherError
deriving Repr, DecidableEq

/-- The state of a single-resolution future (`SettableFuture` from
`tchannel/futures`).  Modelled from the spec: a future is created
pending, and is either resolved with a response or failed with an
error, exactly once. -/
inductive FutureState where
  | pending
  | resolved (r : Response)
  | failed (e : PyError)
deriving Repr, DecidableEq

/-- The pending-call table `self._futures`: a Python dict from message
identifier to future, modelled as an association list. -/
abbrev FutureTable := List (Nat × FutureState)

/-- Dict lookup `d.get(k)`. -/
def dictGet {κ α : Type} [DecidableEq κ] (d : List (κ × α)) (k : κ) : Option α :=
  match d with
  | [] => none
  | (k', v) :: rest => if k' = k then some v else dictGet rest k

/-- Dict update `d[k] = v` (replaces an existing binding, else appends). -/
def dictSet {κ α : Type} [DecidableEq κ] (d : List (κ × α)) (k : κ) (v : α) :
    List (κ × α) :=
  match d with
  | [] => [(k, v)]
  | (k', v') :: rest =>
      if k' = k then (k, v) :: rest else (k', v') :: dictSet rest k v

/-- Dict deletion `del d[k]` (removes the binding for `k`, if any). -/
def dictDel {κ α : Type} [DecidableEq κ] (d : List (κ × α)) (k : κ) :
    List (κ × α) :=
  match d with
  | [] => []
  | (k', v') :: rest =>
      if k' = k then rest else (k', v') :: dictDel rest k

namespace TChannelOutOps

/-- The `TChannelOutOps.State` enum: the connection lifecycle states. -/
inductive State where
  | init
  | ready
  | closed
deriving Repr, DecidableEq

/-- Method `TChannelOutOps._next_message_id`: increment the counter under the
lock and return the new value.  Returns `(new counter, allocated id)`. -/
def next_message_id (id_counter : Nat) : Nat × Nat :=
  (id_counter + 1, id_counter + 1)

/-- The identifiers handed out by `n` successive calls to
`_next_message_id` starting from counter value `c`, in order. -/
def messageIdRun (c : Nat) : Nat → List Nat
  | 0 => []
  | n + 1 =>
      let p := next_message_id c
      p.2 :: messageIdRun p.1 n

/-- A decoded inbound frame as returned by `SocketConnection.await`:
a message identifier paired with the decoded message. -/
structure Context where
  message_id : Nat
  message : Response
deriving Repr, DecidableEq

/-- One iteration's input to the receiver loop: what
`self._conn.await()` produced this time round. -/
inductive RecvEvent where
  /-- Exception `socket.timeout` was raised: the loop does `continue`. -/
  | timeout
  /-- Call `await()` returned `None`: end of stream. -/
  | endOfStream
  /-- Call `await()` returned a decoded frame. -/
  | frame (ctx : Context)
deriving Repr, DecidableEq

/-- How the receiver loop ended. -/
inductive ReceiverExit where
  /-- The `while not self.closed()` condition observed the closed state. -/
  | stateClosed
  /-- Loop `break` on end of stream. -/
  | endOfStream
  /-- An uncaught exception escaped the loop body and terminated the
  receiver thread. -/
  | crashed (e : PyError)
deriving Repr, DecidableEq

/-- The body of `_start_receiver` for one decoded frame:
`self._futures[ctx.message_id].set_result(ctx.message)`.  A Python
dict subscript with a missing key raises `KeyError`; otherwise the
matching future is resolved with the decoded message. -/
def receiver_dispatch (futures : FutureTable) (ctx : Context) :
    Except PyError FutureTable :=
  match dictGet futures ctx.message_id with
  | none => .error (.keyError ctx.message_id)
  | some _ => .ok (dictSet futures ctx.message_id (.resolved ctx.message))

/-- Method `TChannelOutOps._start_receiver`, run over a finite trace of
inbound events.  Exhausting the trace stands for the loop condition
observing the closed state.  Returns the final pending-call table and
how the loop ended. -/
def start_receiver (futures : FutureTable) :
    List RecvEvent → FutureTable × ReceiverExit
  | [] => (futures, .stateClosed)
  | .timeout :: rest => start_receiver futures rest
  | .endOfStream :: _ => (futures, .endOfStream)
  | .frame ctx :: rest =>
      match receiver_dispatch futures ctx with
      | .error e => (futures, .crashed e)
      | .ok futures' => start_receiver futures' rest

/-- The queue item dequeued by the sender loop: `None` (poison), or a
`Request` whose `message` field may itself be `None` (also poison). -/
abbrev QueueItem := Option (Option CallRequestMessage)

/-- One iteration's input to the sender loop: what
`self._outstanding.get(timeout=...)` produced this time round. -/
inductive SendEvent where
  /-- Exception `queue.Empty` was raised by the bounded wait: the loop does `continue`. -/
  | queueEmpty
  /-- An item was dequeued. -/
  | item (request : QueueItem)
deriving Repr, DecidableEq

/-- How the sender loop ended. -/
inductive SenderExit where
  /-- The `while not self.closed()` condition observed the closed state. -/
  | stateClosed
  /-- Loop `break` on a `None` request or a `None` message (poison). -/
  | poisoned
  /-- An uncaught exception escaped the loop body and terminated the
  sender thread. -/
  | crashed (e : PyError)
deriving Repr, DecidableEq

/-- The codec write `self._conn.frame_and_write(msg, message_id=...)`:
either succeeds or raises an encoding error. -/
abbrev Writer := CallRequestMessage → Nat → Except PyError Unit

/-- Method `TChannelOutOps._start_sender`, run over a finite trace of queue
events.  On a genuine request it allocates the next message id,
records the request's (still pending) future in the table, then writes
the framed message; the loop body has no exception handler, so a write
error escapes the loop.  Exhausting the trace stands for the loop
condition observing the closed state.  Returns the final counter, the
final pending-call table and how the loop ended. -/
def start_sender (write : Writer) (id_counter : Nat) (futures : FutureTable) :
    List SendEvent → Nat × FutureTable × SenderExit
  | [] => (id_counter, futures, .stateClosed)
  | .queueEmpty :: rest => start_sender write id_counter futures rest
  | .item none :: _ => (id_counter, futures, .poisoned)
  | .item (some none) :: _ => (id_counter, futures, .poisoned)
  | .item (some (some msg)) :: rest =>
      let p := next_message_id id_counter
      let futures' := dictSet futures p.2 .pending
      match write msg p.2 with
      | .ok _ => start_sender write p.1 futures' rest
      | .error e => (p.1, futures', .crashed e)

/-- Codec exchanges performed by `handshake`. -/
inductive HandshakeAction where
  /-- Call `self._conn.initiate_handshake({host_port, process_name})`. -/
  | initiateHandshake (host_port : String) (process_name : String)
  /-- Call `self._conn.await_handshake_reply()`. -/
  | awaitHandshakeReply
deriving Repr, DecidableEq

/-- Method `TChannelOutOps.handshake`.  The opening `assert` fires when
the state is already `closed`, raising before any exchange (in the
source the failing assert even raises `AttributeError` while building
its message, since `self.host` is undefined; either way an exception is
raised before any codec call).  When the state is past `init` the
method returns at once without touching the codec.  Only from `init`
does it perform the two codec exchanges and move the state to `ready`.
Returns the new state and the exchanges performed, or the raised
error. -/
def handshake (name : String) (s : State) :
    Except PyError (State × List HandshakeAction) :=
  if s = .closed then .error .assertionError
  else if s ≠ .init then .ok (s, [])
  else .ok (.ready,
    [.initiateHandshake "0.0.0.0:0" name, .awaitHandshakeReply])

/-- The connection state that `send` reads and writes: the lifecycle
state, the outbound queue `self._outstanding` (the messages submitted,
in order), and the number of `SettableFuture` objects created so far. -/
structure SendState where
  state : State
  outstanding : List CallRequestMessage
  futuresCreated : Nat
deriving Repr, DecidableEq

/-- The closure `handle_response` defined inside `send`: raise
`TChannelApplicationException` with the response's code and three
arguments when the code is non-zero, otherwise return the response. -/
def handle_response (response : Response) :
    Except TChannelApplicationException Response :=
  if response.code ≠ 0 then
    .error ⟨response.code, response.arg_1, response.arg_2, response.arg_3⟩
  else .ok response

/-- The outcome of one `send` call as observed by its caller. -/
inductive CallOutcome where
  /-- The call succeeded with this response (the blocking path returns
  it; the deferred path resolves the returned future with it). -/
  | ok (r : Response)
  /-- The call failed with `TChannelApplicationException` (raised by
  the blocking path; fails the returned future in deferred mode). -/
  | appError (e : TChannelApplicationException)
  /-- The opening `assert self._state == self.State.ready` failed:
  `AssertionError` is raised before the message or future is built. -/
  | usageError
deriving Repr, DecidableEq

/-- Method `TChannelOutOps.send`.  First the `assert` on the state: when
it fails, nothing else runs, so the connection state is returned
unchanged.  Otherwise the three arguments are wrapped in a
`CallRequestMessage`, a fresh future is created and the pair is
enqueued; `resolution` is the response with which the receiver loop
eventually resolves that future, and the result future transforms it
through `handle_response` (modelled from the spec: `transform_future`
from `tchannel/futures`, not under `src/`, applies the handler to the
resolved value, and a handler exception fails the transformed future;
blocking mode calls `result()`, which returns the value or re-raises,
so both modes observe the same `CallOutcome`).  Returns the connection
state after the call and the observed outcome. -/
def send (c : SendState) (arg_1 arg_2 arg_3 : Bytes) (resolution : Response) :
    SendState × CallOutcome :=
  if c.state = .ready then
    let c' : SendState :=
      { c with
          outstanding := c.outstanding ++ [⟨arg_1, arg_2, arg_3⟩],
          futuresCreated := c.futuresCreated + 1 }
    match handle_response resolution with
    | .ok r => (c', .ok r)
    | .error e => (c', .appError e)
  else (c, .usageError)

/-- The observable steps of `close`, in execution order. -/
inductive CloseEvent where
  /-- Assignment `self._state = self.State.closed`. -/
  | setStateClosed
  /-- Call `self._outstanding.put(None)`: the poison marker. -/
  | putPoison
  /-- Call `self._sender.join()`. -/
  | joinSender
  /-- Call `self._sock.close()`. -/
  | closeSocket
  /-- Call `self._receiver.join()`. -/
  | joinReceiver
  /-- Call `self._on_close(self)`. -/
  | onCloseCallback
deriving Repr, DecidableEq

/-- Method `TChannelOutOps.close`: return at once when already closed,
otherwise perform the close sequence.  Returns the new state and the
steps performed, in order. -/
def close (s : State) : State × List CloseEvent :=
  if s = .closed then (s, [])
  else (.closed,
    [.setStateClosed, .putPoison, .joinSender, .closeSocket,
     .joinReceiver, .onCloseCallback])

end TChannelOutOps

namespace OutgoingTChannel

/-- A destination key: the `(host, port)` pair. -/
abbrev HostPort := String × Nat

/-- The registry map `self._connections` from `(host, port)` to a
connection.  Each `TChannelOutOps` object is modelled by a unique
object id (a `Nat`), so Python's `is` comparison becomes equality of
ids. -/
abbrev ConnMap := List (HostPort × Nat)

/-- The body of the `with self._lock` block in
`OutgoingTChannel._get_connection`, entered after the fast path found
no entry and a fresh socket was opened for the would-be connection
`newConn`: re-check the map under the lock; when someone else
established the connection meanwhile, close the new socket and return
the existing connection; otherwise install the new connection.
Returns `(map, returned connection, whether the fresh socket was
closed)`. -/
def get_connection_locked (m : ConnMap) (k : HostPort) (newConn : Nat) :
    ConnMap × Nat × Bool :=
  match dictGet m k with
  | some conn => (m, conn, true)
  | none => (dictSet m k newConn, newConn, false)

/-- Result of a `_get_connection` call: the map after the call, the
connection returned to the caller, whether a fresh socket was opened,
and whether that fresh socket was closed again before returning. -/
structure GetConnResult where
  connections : ConnMap
  returned : Nat
  openedSocket : Bool
  closedSocket : Bool
deriving Repr, DecidableEq

/-- Method `OutgoingTChannel._get_connection`.  `mFast` is the map as
read by the unlocked fast path; `mLock` is the map at the moment this
call acquires the lock, which a concurrent call may have extended in
between (when the fast path hits, the lock is never taken and the map
is not touched and stands at `mLock` when this call returns).
`newConn` is the object id of the connection this call would build. -/
def get_connection (mFast mLock : ConnMap) (k : HostPort) (newConn : Nat) :
    GetConnResult :=
  match dictGet mFast k with
  | some conn => ⟨mLock, conn, false, false⟩
  | none =>
      let r := get_connection_locked mLock k newConn
      ⟨r.1, r.2.1, true, r.2.2⟩

/-- Method `OutgoingTChannel._on_conn_close`, the close callback
registered for each installed connection: under the lock, when the key
is mapped and the mapped value `is` the closing connection, delete the
entry; otherwise leave the map alone. -/
def on_conn_close (m : ConnMap) (host : String) (port : Nat)
    (connection : Nat) : ConnMap :=
  match dictGet m (host, port) with
  | some c => if c = connection then dictDel m (host, port) else m
  | none => m

/-- One operation on the registry map, performed under `self._lock`. -/
inductive RegOp where
  /-- The locked section of `_get_connection` after a fast-path miss,
  with `newConn` the object id of the would-be new connection. -/
  | getConn (k : HostPort) (newConn : Nat)
  /-- The `_on_conn_close` callback of connection `conn` for key `k`. -/
  | evict (k : HostPort) (conn : Nat)

/-- Apply one registry operation to the map. -/
def regApply (m : ConnMap) : RegOp → ConnMap
  | .getConn k newConn => (get_connection_locked m k newConn).1
  | .evict k conn => on_conn_close m k.1 k.2 conn

/-- Run a sequence of registry operations from a starting map. -/
def regRun (m : ConnMap) (ops : List RegOp) : ConnMap :=
  ops.foldl regApply m

/-- How one connection's `close()` behaves when `OutgoingTChannel.close`
iterates over it. -/
inductive CloseBehavior where
  /-- Returns normally. -/
  | ok
  /-- Raises `socket.error`. -/
  | raisesSocketError
  /-- Raises an exception that is not a `socket.error`. -/
  | raisesOther
deriving Repr, DecidableEq

/-- Method `OutgoingTChannel.close`: iterate over the mapped
connections in order and call each one's `close()` inside
`try: ... except socket.error: pass`.  Only `socket.error` is caught;
any other exception propagates out of the loop, so the connections
after it are never closed.  For each connection, the returned list
records whether its `close()` was invoked; the second component is the
exception that escaped `OutgoingTChannel.close`, if any. -/
def registry_close : List CloseBehavior → List Bool × Option PyError
  | [] => ([], none)
  | .ok :: rest =>
      let r := registry_close rest
      (true :: r.1, r.2)
  | .raisesSocketError :: rest =>
      let r := registry_close rest
      (true :: r.1, r.2)
  | .raisesOther :: rest => (true :: rest.map (fun _ => false), some .otherError)

end OutgoingTChannel

end TChannelModel

namespace TChannelModel

open TChannelOutOps OutgoingTChannel

/-- A codec writer whose `frame_and_write` always raises an encoding
error. -/
def failingWriter : Writer := fun _ _ => .error .encodingError

/-- The id sequence from counter `c` is the arithmetic range starting
at `c + 1`. -/
theorem messageIdRun_eq_range' (c n : Nat) :
    messageIdRun c n = List.range' (c + 1) n := by
  induction n generalizing c with
  | zero => rfl
  | succ n ih =>
      simp [messageIdRun, next_message_id, List.range'_succ, ih]

/-- Looking up a key just set returns the value set. -/
theorem dictGet_dictSet {κ α : Type} [DecidableEq κ]
    (d : List (κ × α)) (k : κ) (v : α) :
    dictGet (dictSet d k v) k = some v := by
  induction d with
  | nil => simp [dictGet, dictSet]
  | cons p rest ih =>
      obtain ⟨k', v'⟩ := p
      by_cases hk : k' = k
      · simp [dictSet, dictGet, hk]
      · simp [dictSet, dictGet, hk, ih]

/-- A key of `dictSet d k v` is `k` or a key of `d`. -/
theorem mem_keys_dictSet {κ α : Type} [DecidableEq κ]
    (d : List (κ × α)) (k x : κ) (v : α)
    (hx : x ∈ (dictSet d k v).map Prod.fst) :
    x = k ∨ x ∈ d.map Prod.fst := by
  induction d with
  | nil => simpa [dictSet] using hx
  | cons p rest ih =>
      obtain ⟨k', v'⟩ := p
      by_cases hk : k' = k
      · subst hk
        simpa [dictSet] using hx
      · simp only [dictSet, if_neg hk, List.map_cons, List.mem_cons] at hx
        rcases hx with hx | hx
        · exact Or.inr (by simp [hx])
        · rcases ih hx with h1 | h2
          · exact Or.inl h1
          · exact Or.inr (by simp [h2])

/-- Updating a dict preserves distinctness of its keys. -/
theorem nodup_keys_dictSet {κ α : Type} [DecidableEq κ]
    (d : List (κ × α)) (k : κ) (v : α)
    (h : (d.map Prod.fst).Nodup) :
    ((dictSet d k v).map Prod.fst).Nodup := by
  induction d with
  | nil => simp [dictSet]
  | cons p rest ih =>
      obtain ⟨k', v'⟩ := p
      simp only [List.map_cons, List.nodup_cons] at h
      obtain ⟨hk', hrest⟩ := h
      by_cases hk : k' = k
      · subst hk
        simpa [dictSet] using And.intro hk' hrest
      · simp only [dictSet, if_neg hk, List.map_cons, List.nodup_cons]
        refine ⟨fun hmem => ?_, ih hrest⟩
        rcases mem_keys_dictSet rest k k' v hmem with h1 | h2
        · exact hk h1
        · exact hk' h2

/-- Deletion yields a sublist of the original dict. -/
theorem dictDel_sublist {κ α : Type} [DecidableEq κ]
    (d : List (κ × α)) (k : κ) :
    List.Sublist (dictDel d k) d := by
  induction d with
  | nil => simp [dictDel]
  | cons p rest ih =>
      obtain ⟨k', v'⟩ := p
      by_cases hk : k' = k
      · simp only [dictDel, if_pos hk]
        exact List.sublist_cons_self (k', v') rest
      · simpa [dictDel, hk] using ih.cons₂ (k', v')

/-- Deleting from a dict preserves distinctness of its keys. -/
theorem nodup_keys_dictDel {κ α : Type} [DecidableEq κ]
    (d : List (κ × α)) (k : κ)
    (h : (d.map Prod.fst).Nodup) :
    ((dictDel d k).map Prod.fst).Nodup :=
  h.sublist ((dictDel_sublist d k).map Prod.fst)

/-- Each locked registry operation preserves distinctness of the keys
of the registry map. -/
theorem nodup_keys_regApply (m : ConnMap) (op : RegOp)
    (h : (m.map Prod.fst).Nodup) :
    ((regApply m op).map Prod.fst).Nodup := by
  cases op with
  | getConn k newConn =>
      cases hg : dictGet m k with
      | some conn => simpa [regApply, get_connection_locked, hg] using h
      | none =>
          simpa [regApply, get_connection_locked, hg] using
            nodup_keys_dictSet m k newConn h
  | evict k conn =>
      cases hg : dictGet m (k.1, k.2) with
      | some c =>
          by_cases hc : c = conn
          · simpa [regApply, on_conn_close, hg, hc] using
              nodup_keys_dictDel m (k.1, k.2) h
          · simpa [regApply, on_conn_close, hg, hc] using h
      | none => simpa [regApply, on_conn_close, hg] using h

/-- Any sequence of locked registry operations preserves distinctness
of the keys of the registry map. -/
theorem nodup_keys_regRun (m : ConnMap) (ops : List RegOp)
    (h : (m.map Prod.fst).Nodup) :
    ((regRun m ops).map Prod.fst).Nodup := by
  induction ops generalizing m with
  | nil => exact h
  | cons op rest ih => exact ih (regApply m op) (nodup_keys_regApply m op h)

/-- C1: Evaluation of the receiver loop at a spurious frame.  With one
pending call (id 1) in the table, an inbound frame carrying the
unknown identifier 42 makes `self._futures[42]` raise `KeyError`: the
uncaught exception terminates the receiver loop, so a later genuine
frame for id 1 is never dispatched and future 1 stays pending.  The
spurious frame is therefore not dropped as a no-op: an error is raised
and the loop stops, contrary to the claim. -/
theorem receiver_spurious_frame_crashes_loop :
    start_receiver [(1, .pending)]
      [.frame ⟨42, ⟨0, [101], [102], [103]⟩⟩,
       .frame ⟨1, ⟨0, [101], [102], [103]⟩⟩]
      = ([(1, .pending)], .crashed (.keyError 42)) := by
  decide

/-- C2 counterexample: a unit of work whose framing raises an encoding
error.  The sender loop does not fail the request's future and does
not continue: it terminates with the uncaught encoding error, the
future registered under id 1 is still pending, and the second unit of
work is never processed. -/
theorem sender_encoding_error_counterexample :
    start_sender failingWriter 0 []
      [.item (some (some ⟨[1], [2], [3]⟩)), .item (some (some ⟨[4], [5], [6]⟩))]
      = (1, [(1, .pending)], .crashed .encodingError) ∧
    dictGet [(1, (FutureState.pending))] 1 = some .pending := by
  constructor <;> decide

/-- C2 (amended): whenever framing/writing the dequeued message raises
an encoding error, the exception escapes the loop body: the sender
loop terminates with that error, the request's future (registered
under the freshly allocated id) is left pending — never failed — and
the remaining units of work are not processed. -/
theorem sender_encoding_error_crashes_loop
    (write : Writer) (c : Nat) (f : FutureTable)
    (msg : CallRequestMessage) (rest : List SendEvent) (e : PyError)
    (h : write msg (c + 1) = .error e) :
    start_sender write c f (.item (some (some msg)) :: rest)
      = (c + 1, dictSet f (c + 1) .pending, .crashed e) ∧
    dictGet (dictSet f (c + 1) .pending) (c + 1) = some .pending := by
  constructor
  · simp [start_sender, next_message_id, h]
  · exact dictGet_dictSet f (c + 1) .pending

/-- Witness for C2 (amended) at a concrete failing writer and request. -/
theorem sender_encoding_error_crashes_loop_witness :
    start_sender failingWriter 0 []
      [.item (some (some ⟨[7], [8], [9]⟩))]
      = (0 + 1, dictSet [] (0 + 1) .pending, .crashed .encodingError) ∧
    dictGet (dictSet ([] : FutureTable) (0 + 1) .pending) (0 + 1)
      = some .pending :=
  sender_encoding_error_crashes_loop failingWriter 0 []
    ⟨[7], [8], [9]⟩ [] .encodingError rfl

/-- C3: for a call made in the `ready` state whose response future
resolves with `r`: a non-zero status code makes the call fail with
`TChannelApplicationException` carrying exactly `r`'s code and three
arguments; a zero status code makes the call succeed with `r`
unmodified.  Both the blocking and the deferred path observe this same
outcome. -/
theorem send_resolution_semantics
    (c : SendState) (a1 a2 a3 : Bytes) (r : Response)
    (h : c.state = .ready) :
    (r.code ≠ 0 →
      (send c a1 a2 a3 r).2
        = .appError ⟨r.code, r.arg_1, r.arg_2, r.arg_3⟩) ∧
    (r.code = 0 → (send c a1 a2 a3 r).2 = .ok r) := by
  constructor <;> intro hc <;> simp [send, h, handle_response, hc]

/-- Witness for C3 at the spec's concrete example: status code 1 with
arguments `(b"e", b"f", b"g")` fails with exactly that exception;
status code 0 with the same arguments succeeds unmodified. -/
theorem send_resolution_semantics_witness :
    (send ⟨.ready, [], 0⟩ [101] [102] [103] ⟨1, [101], [102], [103]⟩).2
      = .appError ⟨1, [101], [102], [103]⟩ ∧
    (send ⟨.ready, [], 0⟩ [101] [102] [103] ⟨0, [101], [102], [103]⟩).2
      = .ok ⟨0, [101], [102], [103]⟩ :=
  ⟨(send_resolution_semantics ⟨.ready, [], 0⟩ [101] [102] [103]
      ⟨1, [101], [102], [103]⟩ rfl).1 (by decide),
   (send_resolution_semantics ⟨.ready, [], 0⟩ [101] [102] [103]
      ⟨0, [101], [102], [103]⟩ rfl).2 rfl⟩

/-- C4: calling `send` on a connection whose state is not `ready`
(still `init`, or already `closed`) fails immediately with the usage
error from the opening `assert`, and the connection state is returned
exactly as it was: nothing is enqueued on the outbound queue and no
future is created. -/
theorem send_not_ready_usage_error
    (c : SendState) (a1 a2 a3 : Bytes) (r : Response)
    (h : c.state ≠ .ready) :
    send c a1 a2 a3 r = (c, .usageError) := by
  simp [send, h]

/-- Witness for C4 on a `closed` connection and on an `init`
connection with a non-empty queue: the call fails with the usage error
and the queue and future count are untouched. -/
theorem send_not_ready_usage_error_witness :
    send ⟨.closed, [], 0⟩ [1] [2] [3] ⟨0, [], [], []⟩
      = (⟨.closed, [], 0⟩, .usageError) ∧
    send ⟨.init, [⟨[9], [], []⟩], 4⟩ [1] [2] [3] ⟨0, [], [], []⟩
      = (⟨.init, [⟨[9], [], []⟩], 4⟩, .usageError) :=
  ⟨send_not_ready_usage_error ⟨.closed, [], 0⟩ [1] [2] [3]
      ⟨0, [], [], []⟩ (by decide),
   send_not_ready_usage_error ⟨.init, [⟨[9], [], []⟩], 4⟩ [1] [2] [3]
      ⟨0, [], [], []⟩ (by decide)⟩

/-- C5: the identifiers returned by any number of successive calls to
`_next_message_id` from any starting counter are strictly increasing
(each one strictly greater than the previous) and therefore pairwise
distinct. -/
theorem message_ids_strictly_increasing (c n : Nat) :
    (messageIdRun c n).Chain' (· < ·) ∧ (messageIdRun c n).Nodup := by
  rw [messageIdRun_eq_range']
  exact ⟨(List.pairwise_lt_range' _ _ 1).chain', List.nodup_range' _ _⟩

/-- C6: `handshake` on a connection already `ready` is a no-op — it
returns without performing any codec exchange and leaves the state
`ready`; on a `closed` connection it fails fast with the error raised
by the opening assert, performing no exchange. -/
theorem handshake_idempotent_and_fails_when_closed (name : String) :
    handshake name .ready = .ok (.ready, []) ∧
    handshake name .closed = .error .assertionError := by
  constructor <;> rfl

/-- C7: `close` on an already-`closed` connection is a no-op returning
without performing any step; on any other state it performs, in this
exact order: set the state to `closed`, push the poison marker and
join the sender, close the socket and join the receiver, then invoke
the close callback; and a second `close` after that performs
nothing. -/
theorem close_protocol_and_idempotence (s : State) (h : s ≠ .closed) :
    close .closed = (.closed, []) ∧
    close s = (.closed,
      [.setStateClosed, .putPoison, .joinSender, .closeSocket,
       .joinReceiver, .onCloseCallback]) ∧
    (close (close s).1).2 = [] := by
  refine ⟨rfl, ?_, ?_⟩ <;> simp [close, h]

/-- Witness for C7 from the `ready` state. -/
theorem close_protocol_and_idempotence_witness :
    close .closed = (.closed, []) ∧
    close .ready = (.closed,
      [.setStateClosed, .putPoison, .joinSender, .closeSocket,
       .joinReceiver, .onCloseCallback]) ∧
    (close (close .ready).1).2 = [] :=
  close_protocol_and_idempotence .ready (by decide)

/-- C8: when `_get_connection` misses on the unlocked fast path, opens
a fresh socket, and then finds under the lock that a connection `c`
for the same key was installed meanwhile, it leaves the map unchanged,
closes its newly opened socket and returns `c` instead of installing a
second connection; moreover any sequence of locked registry operations
(double-checked installs and close-callback evictions) keeps the keys
of the map pairwise distinct, so at most one connection per
`(host, port)` key is ever reachable through the map. -/
theorem registry_single_connection_per_key
    (mFast mLock m : ConnMap) (k : HostPort) (newConn conn : Nat)
    (ops : List RegOp)
    (hfast : dictGet mFast k = none) (hlock : dictGet mLock k = some conn)
    (hnodup : (m.map Prod.fst).Nodup) :
    get_connection mFast mLock k newConn = ⟨mLock, conn, true, true⟩ ∧
    ((regRun m ops).map Prod.fst).Nodup := by
  constructor
  · simp [get_connection, get_connection_locked, hfast, hlock]
  · exact nodup_keys_regRun m ops hnodup

/-- Witness for C8: the fast path sees an empty map, connection 5 is
installed by a concurrent request before the lock is taken, and the
locked re-check returns 5, closes the fresh socket and installs
nothing; the operation-sequence invariant is instantiated at two
competing installs for the same key. -/
theorem registry_single_connection_per_key_witness :
    get_connection [] [(("h", 1), 5)] ("h", 1) 9
      = ⟨[(("h", 1), 5)], 5, true, true⟩ ∧
    ((regRun [] [.getConn ("h", 1) 5, .getConn ("h", 1) 9]).map
      Prod.fst).Nodup :=
  registry_single_connection_per_key [] [(("h", 1), 5)] [] ("h", 1) 9 5
    [.getConn ("h", 1) 5, .getConn ("h", 1) 9] rfl (by decide) (by decide)

/-- C9 counterexample: a registry holding two connections where the
first one's `close()` raises an exception that is not a
`socket.error`.  `OutgoingTChannel.close` only swallows
`socket.error`, so the exception escapes the registry's `close` and
the second connection is never closed — the claim that any
per-connection close error is swallowed is false at this input. -/
theorem registry_close_counterexample :
    registry_close [.raisesOther, .ok] = ([true, false], some .otherError) := by
  decide

/-- C9 (amended): registry `close()` swallows `socket.error` raised by
an individual connection's close: for every map of connections none of
whose closes raises a non-`socket.error` exception, every connection's
`close()` is invoked and the registry's `close()` raises nothing. -/
theorem registry_close_swallows_socket_errors
    (l : List CloseBehavior) (h : CloseBehavior.raisesOther ∉ l) :
    registry_close l = (l.map fun _ => true, none) := by
  induction l with
  | nil => rfl
  | cons b rest ih =>
      have hrest : CloseBehavior.raisesOther ∉ rest :=
        fun hm => h (List.mem_cons_of_mem b hm)
      cases b with
      | ok => simp [registry_close, ih hrest]
      | raisesSocketError => simp [registry_close, ih hrest]
      | raisesOther => exact absurd (List.mem_cons_self _ _) h

/-- Witness for C9 (amended): one close raising `socket.error`
followed by one succeeding close — both are invoked and nothing
escapes. -/
theorem registry_close_swallows_socket_errors_witness :
    registry_close [.raisesSocketError, .ok]
      = ([CloseBehavior.raisesSocketError, .ok].map fun _ => true, none) :=
  registry_close_swallows_socket_errors [.raisesSocketError, .ok] (by decide)

/-- C10: the close callback `_on_conn_close` for key `(host, port)` of
connection `connection` deletes the map entry exactly when the mapped
value is that same connection object (Python `is`, here equality of
object ids); when a different connection is mapped under the key the
map is returned untouched, and when the key is unmapped the callback
is a no-op. -/
theorem on_conn_close_identity_check
    (m : ConnMap) (host : String) (port : Nat) (connection other : Nat) :
    (dictGet m (host, port) = some connection →
      on_conn_close m host port connection = dictDel m (host, port)) ∧
    (dictGet m (host, port) = some other → other ≠ connection →
      on_conn_close m host port connection = m) ∧
    (dictGet m (host, port) = none →
      on_conn_close m host port connection = m) := by
  refine ⟨fun h => ?_, fun h hne => ?_, fun h => ?_⟩
  · simp [on_conn_close, h]
  · simp [on_conn_close, h, hne]
  · simp [on_conn_close, h]

/-- Witness for C10: the callback of connection 5 evicts the entry
mapping to 5; the callback of connection 7 leaves an entry mapping to
5 untouched; the callback on an empty map is a no-op. -/
theorem on_conn_close_identity_check_witness :
    on_conn_close [(("h", 1), 5)] "h" 1 5 = dictDel [(("h", 1), 5)] ("h", 1) ∧
    on_conn_close [(("h", 1), 5)] "h" 1 7 = [(("h", 1), 5)] ∧
    on_conn_close [] "h" 1 5 = [] :=
  ⟨(on_conn_close_identity_check [(("h", 1), 5)] "h" 1 5 5).1 (by decide),
   (on_conn_close_identity_check [(("h", 1), 5)] "h" 1 7 5).2.1
     (by decide) (by decide),
   (on_conn_close_identity_check [] "h" 1 5 0).2.2 (by decide)⟩

end TChannelModel
